import Mathlib

/-!
Verification of the `create-lscs-next-app` scaffolding CLI.

The program under study is `src/index.js` together with its string templates
(`src/templates/packageJson.js`, `templates/readmeTemplate.js`,
`templates/featureReadme.js`).  The CLI is a one-shot batch pipeline over the
filesystem: it resolves a project or feature name from `process.argv`, invokes
the external `create-next-app` generator, and then materializes a fixed
directory tree and a set of rendered template files.

The embedding below models:
* the filesystem as a finite set of directory paths plus an association list
  from file paths to string contents (`FS`);
* the Node `fs` calls used by the script (`mkdirSync` with and without
  `recursive: true`, `writeFileSync`, `renameSync`, `copyFileSync`,
  `unlinkSync`, `existsSync`);
* the three pure template functions, transcribed verbatim from the source;
* JSON manifests as association lists of fields (`JsonVal`), with the
  script-injection patches of `package.json`;
* the control flow of `main()` as an event trace (`mainEvents`), with every
  external or filesystem-dependent branch condition supplied as an oracle
  field of `Ctx`.

Paths are lists of segments rooted at the current working directory; the tool
installation's bundled `templates` directory is modeled by the distinguished
root segment `"<cli-templates>"` since it lives outside the target tree.
-/

-- ────────────────────────────────────────────────────────────────────
-- Association lists: JS object property access/update and the file map
-- ────────────────────────────────────────────────────────────────────

/-- Lookup of a key in an association list; mirrors JS property read. -/
def getAssoc {α β : Type} [DecidableEq α] (k : α) : List (α × β) → Option β
  | [] => none
  | (k', v) :: rest => if k' = k then some v else getAssoc k rest

/-- Update of a key in an association list; mirrors JS property assignment:
an existing key keeps its position and gets the new value, a fresh key is
appended at the end. -/
def setAssoc {α β : Type} [DecidableEq α] (k : α) (v : β) : List (α × β) → List (α × β)
  | [] => [(k, v)]
  | (k', v') :: rest => if k' = k then (k, v) :: rest else (k', v') :: setAssoc k v rest

-- ────────────────────────────────────────────────────────────────────
-- JS string trimming (String.prototype.trim on the ASCII whitespace
-- actually occurring in this program's strings)
-- ────────────────────────────────────────────────────────────────────

/-- Whitespace recognized by the model of JS `trim`. -/
def isJsSpace (c : Char) : Bool :=
  c = ' ' || c = '\n' || c = '\t' || c = '\r'

/-- Model of JS `String.prototype.trim`: strip leading and trailing
whitespace. -/
def jsTrim (s : String) : String :=
  ⟨((s.data.dropWhile isJsSpace).reverse.dropWhile isJsSpace).reverse⟩

-- ────────────────────────────────────────────────────────────────────
-- Templates (transcribed from the JS template literals; `\x7b`/`\x7d`
-- denote the literal brace characters of the JSON text)
-- ────────────────────────────────────────────────────────────────────

/-- src/templates/packageJson.js: `packageJsonTemplate`.  The JS source
applies `.trim()` to the template literal, modeled by `jsTrim`. -/
def packageJsonTemplate (projectName : String) : String :=
  jsTrim ("\n\x7b\n  \"name\": \""
    ++ projectName
    ++ "\",\n  \"version\": \"0.1.0\",\n  \"private\": true,\n  \"scripts\": \x7b\n    \"dev\": \"next dev --turbopack\",\n    \"build\": \"next build\",\n    \"start\": \"next start\",\n    \"lint\": \"eslint . --ext .ts,.tsx,.js,.jsx\",\n    \"format\": \"prettier --write .\",\n    \"test\": \"vitest\"\n  \x7d,\n  \"dependencies\": \x7b\n    \"next\": \"^15.5.3\",\n    \"react\": \"^18.2.0\",\n    \"react-dom\": \"^18.2.0\",\n    \"tailwind-merge\": \"^3.3.1\",\n    \"zustand\": \"^5.0.8\",\n    \"@tanstack/react-query\": \"^5.87.4\",\n    \"react-hook-form\": \"^7.62.0\",\n    \"zod\": \"^4.1.8\",\n    \"framer-motion\": \"^12.23.12\",\n    \"react-icons\": \"^5.5.0\",\n    \"drizzle-orm\": \"^0.25.0\"\n  \x7d,\n  \"devDependencies\": \x7b\n    \"@types/node\": \"^20.19.14\",\n    \"@types/react\": \"^18.2.14\",\n    \"@types/react-dom\": \"^18.2.7\",\n    \"eslint\": \"^9.35.0\",\n    \"eslint-config-next\": \"^15.5.3\",\n    \"prettier\": \"^3.6.2\",\n    \"tailwindcss\": \"^4.1.13\",\n    \"typescript\": \"^5.9.2\",\n    \"vitest\": \"^3.2.4\",\n    \"cypress\": \"^12.17.0\"\n  \x7d\n")

/-- The opening brace character, written via its code point. -/
def openBrace : Char := Char.ofNat 123

/-- The closing brace character, written via its code point. -/
def closeBrace : Char := Char.ofNat 125

/-- Number of occurrences of a character in a string. -/
def countChar (c : Char) (s : String) : Nat :=
  (s.data.filter (fun x => x = c)).length

/-- templates/readmeTemplate.js: readmeTemplate, the root project README. -/
def readmeTemplate (projectName : String) : String :=
  "\n# "
    ++ projectName
    ++ "\n\nThis project was bootstrapped with **create-lscs-next-app** — a CLI that sets up a scalable, opinionated **Feature-Driven Next.js Architecture** using modern standards and conventions.\n\n---\n\n## 1. 🚀 Development Setup\n\n- Prettier + ESLint (with Prettier rules)\n- Organized, modular folder structure\n- Atomic Design + Feature Architecture\n- Vitest + Cypress preconfigured for testing\n- Global styles in `src/styles/globals.css`\n\n### Scripts\n\n- `npm run dev` → Start development server\n- `npm run build` → Build production bundle\n- `npm run start` → Run production build\n- `npm run lint` → Run ESLint\n- `npm run test` → Run Vitest\n- `npm run test:e2e` → Run Cypress end-to-end tests\n\n---\n\n## 2. ⚡ Creating a New Feature\n\nYou can scaffold a new feature module using the CLI:\n\n```bash\nnpx create-lscs-next-app feature <feature-name>\n```\n\nThis generates a folder under `src/features/<feature-name>` with:\n\n- components/\n- containers/\n- hooks/\n- services/\n- queries/\n- types/\n- data/\n- README.md\n\nEach generated feature is self-contained and ready to scale.\n\n---\n\n## 3. 🧬 Atomic Design System\n\nEach feature uses **Atomic Design** to organize components by their role and reusability.\n\n```\n[feature-name]/\n└── components/\n    ├── atoms/       # Smallest, indivisible UI elements (Button, Input, Label)\n    ├── molecules/   # Groups of atoms forming functional units (Card, Form Field)\n    └── organisms/   # Complex UI sections built from molecules/atoms (Navbar, Footer, Hero)\n```\n\n### 🧩 How It Works\n\n- **Atoms** → Basic reusable UI parts.\n- **Molecules** → Groups of atoms with simple interactivity.\n- **Organisms** → Larger composed sections of the interface.\n\nThis structure allows:\n- Reusability and consistency in UI\n- Easier maintenance and scaling of complex designs\n- Clear boundaries between design layers\n\n---\n\n## 4. ⚙️ Container/Presentational Pattern\n\nInside each feature, logic and UI are **separated** into distinct layers to keep the codebase clean and modular.\n\n| Layer | Folder | Responsibility |\n|-------|---------|----------------|\n| **Presentational** | `components/` | Defines **how things look**. Purely visual, receives data via props. No business logic. |\n| **Container** | `containers/` | Defines **how things work**. Handles logic, data fetching, and passes props to components. |\n\n### Example\n\n```tsx\n// components/atoms/Button.tsx (Presentational)\nexport const Button = (\x7b label, onClick \x7d) => (\n  <button className=\"px-4 py-2 bg-green-600 text-white rounded\" onClick=\x7bonClick\x7d>\n    \x7blabel\x7d\n  </button>\n);\n```\n\n```tsx\n// containers/LoginContainer.tsx (Container)\nimport \x7b Button \x7d from \"../components/atoms/Button\";\nimport \x7b useAuth \x7d from \"../hooks/useAuth\";\n\nexport const LoginContainer = () => \x7b\n  const \x7b login \x7d = useAuth();\n  return <Button label=\"Login\" onClick=\x7blogin\x7d />;\n\x7d;\n```\n\n✅ **Benefits**\n- Components remain reusable and easy to test.\n- Logic is decoupled from presentation.\n- Easier collaboration between UI and logic developers.\n\n---\n\n## 5. 🏗️ Architecture Overview\n\nThe architecture follows **Feature-Driven Development (FDD)**.\nAll code is organized around features instead of technical layers — ensuring modularity and scalability.\n\n```\nsrc/\n├── app/ # Next.js App Router\n│   ├── layout.tsx\n│   ├── page.tsx\n│   └── providers.tsx\n│\n├── components/ # Global shared UI (Atomic Design)\n│   ├── atoms/\n│   ├── molecules/\n│   └── organisms/\n│\n├── features/ # Domain-specific modules\n│   ├── [feature-name]/ # Generated via CLI\n│   │   ├── components/ (Atoms → Molecules → Organisms)\n│   │   ├── containers/\n│   │   ├── hooks/\n│   │   ├── services/\n│   │   ├── queries/\n│   │   ├── types/\n│   │   └── data/\n│   └── shared/ # Shared feature logic/components\n│\n├── lib/ # Global utilities & helpers\n├── queries/ # Global TanStack Query setup\n├── store/ # Zustand stores\n├── providers/ # App-level providers (Auth, Theme, Query)\n├── config/ # Constants, environment setup\n├── styles/ # Global styles\n├── types/ # Global TypeScript types\n└── tests/ # Unit & E2E tests\n```\n\nThis structure keeps the app modular, testable, and highly maintainable.\n\n---\n\n## 6. 🧠 Tech Stack Recommendations\n\nThese libraries are **recommended** (not auto-installed) for your feature development:\n\n| Category | Tool |\n|-----------|------|\n| Language | **TypeScript** |\n| Styling | **Tailwind CSS**, optionally **shadcn/ui** |\n| Data Fetching | **TanStack Query** |\n| State Management | **Zustand** |\n| Forms | **React Hook Form** + **Zod** |\n| Authentication | **NextAuth.js** |\n| Animations | **Framer Motion** |\n| Testing | **Vitest** + **Cypress** |\n| ORM | **Drizzle ORM** |\n\n---\n\n## 7. 🧾 Coding Standards\n\n- Use **functional React components** with hooks.\n- **Type everything** using TypeScript.\n- Maintain logic/UI separation (Container/Presentational).\n- Use **Zustand** for client state, **TanStack Query** for server data.\n- Handle loading/error states gracefully.\n- Use **Prettier** + **ESLint** for style consistency.\n- Test with **Vitest** (unit) and **Cypress** (e2e).\n- Comment only to explain **why**, not **what**.\n\n---\n\n## 8. 🤝 Contribution Workflow\n\n### Branch Model\n- `main` → production branch\n- `staging` → pre-release testing\n- `dev` → active development\n\n### Workflow\n1. Create branch: `feature/<issue-no-desc>` or `fix/<issue-no-desc>`\n2. Commit using **Conventional Commits**:\n   - `feat(auth): add JWT authentication`\n   - `fix(api): correct null pointer`\n3. Open a PR → target `dev` (or `main` for hotfix)\n4. Get at least **1 approval** before merging\n5. Use **Squash and Merge** to keep history clean\n\n### Commit Message Reference\n\n| Type | Description |\n|------|--------------|\n| feat | New feature |\n| fix | Bug fix |\n| docs | Documentation change |\n| style | Code style (no logic) |\n| refactor | Refactor (no behavior) |\n| test | Add/update tests |\n| chore | Maintenance tasks |\n\n---\n\n## 9. 🧪 Testing Setup\n\nThis project comes preconfigured with **Vitest** (unit/integration tests) and **Cypress** (end-to-end tests).\n\n### 🧩 Unit & Integration Tests — *Vitest*\n\n- Location: `/src/tests/unit/` or near related files (e.g. `Button.test.tsx`)\n- Run tests:\n  ```bash\n  npm run test\n  ```\n- Example:\n  ```tsx\n  import \x7b render, screen \x7d from \"@testing-library/react\";\n  import \x7b Button \x7d from \"@/components/atoms/Button\";\n\n  test(\"renders button label\", () => \x7b\n    render(<Button label=\"Click me\" onClick=\x7b() => \x7b\x7d\x7d />);\n    expect(screen.getByText(\"Click me\")).toBeInTheDocument();\n  \x7d);\n  ```\n\n### 🌐 End-to-End Tests — *Cypress*\n\n- Location: `/src/tests/e2e/`\n- Run tests (interactive mode):\n  ```bash\n  npm run test:e2e\n  ```\n- Example:\n  ```js\n  // cypress/e2e/login.cy.ts\n  describe(\"Login Page\", () => \x7b\n    it(\"should allow user to login\", () => \x7b\n      cy.visit(\"/login\");\n      cy.get(\"input[name=email]\").type(\"user@example.com\");\n      cy.get(\"input[name=password]\").type(\"password123\");\n      cy.get(\"button[type=submit]\").click();\n      cy.url().should(\"include\", \"/dashboard\");\n    \x7d);\n  \x7d);\n  ```\n\n✅ **Best Practices**\n- Keep unit tests close to the files they test.\n- Mock API responses using `msw` (Mock Service Worker).\n- Use **Vitest** for logic/UI testing, **Cypress** for full app flow.\n- Ensure all PRs include relevant test coverage.\n\n---\n\n✅ Following these conventions ensures your "
    ++ projectName
    ++ " project remains **scalable**, **maintainable**, and **collaborative** — aligned with LSCS development standards.\n"

/-- templates/featureReadme.js: featureReadme, the per-feature README. -/
def featureReadme (featureName : String) : String :=
  "\n# Feature Module: "
    ++ featureName
    ++ "\n\nThis folder is a **template** for creating new features.\nTo add a new feature:\n\n1. **Run** `npx create-lscs-app feature <feature-name>`\n   → This automatically sets up the full feature structure.\n2. Start implementing your feature logic, UI, and hooks inside this folder.\n\n---\n\n## 📂 Folder Structure\n\n- `components/`\n  - `atoms/` → Smallest reusable UI elements (buttons, inputs, icons).\n  - `molecules/` → Groups of atoms working together (forms, cards).\n  - `organisms/` → Complex UI sections composed of molecules and atoms.\n- `containers/` → Smart components that connect UI with logic, hooks, and services.\n- `hooks/` → Custom React hooks specific to this feature.\n- `services/` → Handles API calls, endpoints, or feature-specific logic.\n- `queries/` → TanStack Query hooks/configs for data fetching.\n- `types/` → TypeScript types/interfaces for the feature.\n- `data/` → Static or mock data (temporary before API integration).\n\n---\n\n## 🧭 Guidelines\n\n- Follow the **Atomic Design** principle inside `components/`.\n- Use the **Container/Presentational** pattern for clean separation.\n- Keep **business logic** in `containers/`, **UI** in `components/`.\n- Always type with **TypeScript**.\n- Use **Zustand** for client state (if applicable).\n- Use **TanStack Query** for server-side data management.\n- Avoid shared state or components unless truly global.\n\n✅ This structure ensures each feature is **modular**, **scalable**, and **easy to maintain** within the LSCS architecture.\n"


-- ────────────────────────────────────────────────────────────────────
-- Filesystem model
-- ────────────────────────────────────────────────────────────────────

/-- A filesystem path, as a list of segments rooted at the current working
directory. -/
abbrev FsPath := List String

/-- The filesystem: the set of existing directories (as a duplicate-free
insertion-ordered list) and the map from file paths to contents. -/
structure FS where
  dirs : List FsPath
  files : List (FsPath × String)
deriving DecidableEq, Repr

/-- The empty tree. -/
def FS.empty : FS := { dirs := [], files := [] }

/-- Content of the file at `p`, if any. -/
def findFile (fs : FS) (p : FsPath) : Option String :=
  getAssoc p fs.files

/-- Node `fs.existsSync`: a path exists when it is a directory or a file. -/
def existsSync (p : FsPath) (fs : FS) : Bool :=
  decide (p ∈ fs.dirs) || (findFile fs p).isSome

/-- Insert a directory path if not already present (directory creation is
not an error-free overwrite: an existing directory is simply kept). -/
def insertDir (d : FsPath) (ds : List FsPath) : List FsPath :=
  if d ∈ ds then ds else ds ++ [d]

/-- All nonempty prefixes of a path, shortest first: the chain of
directories `mkdirSync` with `recursive: true` brings into existence. -/
def prefixesOf : FsPath → List FsPath
  | [] => []
  | a :: rest => [a] :: (prefixesOf rest).map (fun p => a :: p)

/-- Insert a list of directory paths in order. -/
def addDirs (ps : List FsPath) (ds : List FsPath) : List FsPath :=
  ps.foldl (fun acc d => insertDir d acc) ds

/-- Node `fs.mkdirSync(p, { recursive: true })`: creates `p` and every
missing ancestor; never fails when directories already exist. -/
def mkdirSyncRec (p : FsPath) (fs : FS) : FS :=
  { fs with dirs := addDirs (prefixesOf p) fs.dirs }

/-- Node `fs.mkdirSync(p)` without `recursive`: fails on an existing path
(EEXIST) or a missing parent (ENOENT). -/
def mkdirSync (p : FsPath) (fs : FS) : Except String FS :=
  if existsSync p fs then .error "EEXIST"
  else if p.dropLast = [] ∨ p.dropLast ∈ fs.dirs then
    .ok { fs with dirs := insertDir p fs.dirs }
  else .error "ENOENT"

/-- Node `fs.writeFileSync`: unconditionally (over)write the file at `p`.
Every call site in the script runs after the parent directory was created
(by `mkdirSync` recursive or by the external generator), so the ENOENT case
for a missing parent is not modeled. -/
def writeFileSync (p : FsPath) (content : String) (fs : FS) : FS :=
  { fs with files := setAssoc p content fs.files }

/-- Remove the file at `p` from the map. -/
def removeFile (p : FsPath) (fs : FS) : FS :=
  { fs with files := fs.files.filter (fun kv => !(kv.1 = p)) }

/-- Node `fs.renameSync` on a file: fails (ENOENT) when the source file does
not exist, else moves its content to `dest` (overwriting). -/
def renameSync (src dest : FsPath) (fs : FS) : Except String FS :=
  match findFile fs src with
  | none => .error "ENOENT"
  | some c => .ok (writeFileSync dest c (removeFile src fs))

/-- Node `fs.copyFileSync`: fails (ENOENT) when the source file does not
exist, else overwrites `dest` with its content. -/
def copyFileSync (src dest : FsPath) (fs : FS) : Except String FS :=
  match findFile fs src with
  | none => .error "ENOENT"
  | some c => .ok (writeFileSync dest c fs)

/-- Node `fs.unlinkSync`: fails (ENOENT) when the file does not exist, else
removes it. -/
def unlinkSync (p : FsPath) (fs : FS) : Except String FS :=
  match findFile fs p with
  | none => .error "ENOENT"
  | some _ => .ok (removeFile p fs)

-- ────────────────────────────────────────────────────────────────────
-- src/index.js: name resolution and feature scaffolding
-- ────────────────────────────────────────────────────────────────────

/-- Structural prefix test on character lists. -/
def isPrefixList : List Char → List Char → Bool
  | [], _ => true
  | _ :: _, [] => false
  | a :: as, b :: bs => decide (a = b) && isPrefixList as bs

/-- Model of JS `String.prototype.startsWith`. -/
def jsStartsWith (s pre : String) : Bool :=
  isPrefixList pre.data s.data

/-- src/index.js `askQuestion`: the raw prompt answer is returned trimmed
(`answer.trim()`). -/
def askQuestion (rawAnswer : String) : String :=
  jsTrim rawAnswer

/-- src/index.js `getProjectName`: `process.argv[2]` is taken when truthy
(present and nonempty) and not starting with `"feature"`; otherwise the
user is prompted and an empty trimmed answer exits with code 1 (modeled as
`Except.error` carrying the diagnostic).  The `Bool` in the result records
whether the interactive prompt was used. -/
def getProjectName (argv2 : Option String) (promptRaw : String) :
    Except String (String × Bool) :=
  match argv2 with
  | some argProject =>
    if argProject ≠ "" ∧ jsStartsWith argProject "feature" = false then
      .ok (argProject, false)
    else
      let name := askQuestion promptRaw
      if name = "" then .error "Project name is required." else .ok (name, true)
  | none =>
    let name := askQuestion promptRaw
    if name = "" then .error "Project name is required." else .ok (name, true)

/-- The seven sub-folders of a feature module (src/index.js
`featureFolders`, identical in `createFeature` and in Step 6 of `main`). -/
def featureFolders : List String :=
  ["components", "containers", "hooks", "services", "queries", "types", "data"]

/-- src/index.js `createFeature`: under `process.cwd()` (the model root),
create `src/features/<featureName>/<folder>` for each of the seven folders
with `mkdirSync(..., { recursive: true })`, then write the rendered feature
README. -/
def createFeature (featureName : String) (fs : FS) : FS :=
  let featureBase : FsPath := ["src", "features", featureName]
  let fs1 := featureFolders.foldl
    (fun s folder => mkdirSyncRec (featureBase ++ [folder]) s) fs
  writeFileSync (featureBase ++ ["README.md"]) (featureReadme featureName) fs1

/-- The nine base folders of Step 5 of `main` (src/index.js lines 191-201). -/
def baseFolders : List String :=
  ["lib", "providers", "hooks", "types", "services", "components", "queries",
   "store", "config"]

/-- Directory-materialization step: `list.forEach((f) =>
fs.mkdirSync(path.join(root, f), { recursive: true }))`, the shape of
Step 5, Step 6 and `createFeature`. -/
def mkdirAll (root : FsPath) (ds : List FsPath) (fs : FS) : FS :=
  ds.foldl (fun s d => mkdirSyncRec (root ++ d) s) fs

/-- Location of the generator-produced global stylesheet, relative to the
project root. -/
def globalsSrc : FsPath := ["src", "app", "globals.css"]

/-- Destination of the relocated stylesheet. -/
def globalsDest : FsPath := ["src", "styles", "globals.css"]

/-- The `src/styles` directory created by Step 7. -/
def stylesDir : FsPath := ["src", "styles"]

/-- src/index.js Step 7 (lines 221-231): create `src/styles` when missing
(plain `mkdirSync`), then `try { renameSync } catch { copyFileSync;
unlinkSync }`.  An error escaping the step propagates to `main().catch`,
which exits with code 1. -/
def moveGlobals (fs : FS) : Except String FS :=
  (if existsSync stylesDir fs then Except.ok fs else mkdirSync stylesDir fs).bind
    fun fs1 =>
      match renameSync globalsSrc globalsDest fs1 with
      | .ok fs2 => .ok fs2
      | .error _ =>
        (copyFileSync globalsSrc globalsDest fs1).bind fun fs2 =>
          unlinkSync globalsSrc fs2

-- ────────────────────────────────────────────────────────────────────
-- JSON manifests and the package.json script-injection patches
-- ────────────────────────────────────────────────────────────────────

/-- A JSON value.  Objects are insertion-ordered association lists of
fields, matching JS object property order; numbers are integral in every
manifest this tool touches. -/
inductive JsonVal where
  | null
  | bool (b : Bool)
  | num (n : Int)
  | str (s : String)
  | arr (elems : List JsonVal)
  | obj (fields : List (String × JsonVal))

/-- A parsed manifest: the top-level JSON object's fields. -/
abbrev Manifest := List (String × JsonVal)

/-- The `scripts` object of a manifest.  Mirrors
`pkgJson.scripts = pkgJson.scripts || \x7b\x7d` (src/index.js line 183) and
`\x7b ...pkg.scripts \x7d`: a missing (or non-object, e.g. `null`) `scripts`
field is replaced by the empty object. -/
def scriptsOf (pkg : Manifest) : List (String × JsonVal) :=
  match getAssoc "scripts" pkg with
  | some (JsonVal.obj s) => s
  | _ => []

/-- src/index.js Step 4b (lines 182-185): `pkgJson.scripts = pkgJson.scripts
|| \x7b\x7d; pkgJson.scripts.format = "prettier --write ."` on the parsed
manifest. -/
def addFormatScript (pkg : Manifest) : Manifest :=
  setAssoc "scripts"
    (JsonVal.obj (setAssoc "format" (JsonVal.str "prettier --write .") (scriptsOf pkg)))
    pkg

/-- Step 9 of the earlier variant (src/unnamed/part_003 lines 213-219):
`pkg.scripts = \x7b ...pkg.scripts, test: "vitest" \x7d` on the parsed
manifest. -/
def addTestScript (pkg : Manifest) : Manifest :=
  setAssoc "scripts"
    (JsonVal.obj (setAssoc "test" (JsonVal.str "vitest") (scriptsOf pkg)))
    pkg

-- ────────────────────────────────────────────────────────────────────
-- Control flow of main() as an event trace
-- ────────────────────────────────────────────────────────────────────

/-- One observable action of the run: a child-process invocation, a
filesystem mutation, or a diagnostic on the error stream. -/
inductive Event where
  | execNode
  | execGenerator (projectName : String)
  | execNpm (cmd : String)
  | mkdir (p : FsPath)
  | writeFile (p : FsPath)
  | copyFile (src dest : FsPath)
  | rename (src dest : FsPath)
  | unlink (p : FsPath)
  | errMsg (msg : String)
deriving DecidableEq, Repr

/-- The run environment: the argument vector and one oracle per external or
filesystem-dependent condition the script branches on.  `nodeMajor` is the
parsed major of `node -v` (`none`: the probe threw, i.e. Node absent);
`genOk`/`npmOk` are child-process exit statuses; `parseOk` is whether
`JSON.parse` of the post-install `package.json` succeeded; the `*Exists`
fields are the `fs.existsSync` checks on the generator-produced tree;
`renameOk`/`copyOk`/`unlinkOk` are the outcomes of the Step 7 filesystem
calls. -/
structure Ctx where
  argv2 : Option String
  argv3 : Option String
  nodeMajor : Option Nat
  promptAnswer : String
  genOk : Bool
  npmOk : Bool
  parseOk : Bool
  publicExists : Bool
  stylesExists : Bool
  appExists : Bool
  renameOk : Bool
  copyOk : Bool
  unlinkOk : Bool
deriving DecidableEq, Repr

/-- Is the event a filesystem mutation (directory or file creation,
overwrite, move or deletion)? -/
def isMutEvent : Event → Bool
  | Event.mkdir _ => true
  | Event.writeFile _ => true
  | Event.copyFile _ _ => true
  | Event.rename _ _ => true
  | Event.unlink _ => true
  | _ => false

/-- Does the trace contain a diagnostic message? -/
def hasErrMsg (es : List Event) : Bool :=
  es.any fun e => match e with | Event.errMsg _ => true | _ => false

/-- No filesystem mutation occurs before the first external-generator
invocation of the trace (trivially true past that invocation). -/
def noMutBeforeGen : List Event → Bool
  | [] => true
  | Event.execGenerator _ :: _ => true
  | e :: rest => !(isMutEvent e) && noMutBeforeGen rest

/-- The trace of a run that stopped at the Step 0 runtime check: the
version probe, one diagnostic, nothing else. -/
def isRuntimeFailTrace : List Event → Bool
  | [Event.execNode, Event.errMsg _] => true
  | _ => false

/-- The bundled template directory of the installed CLI package
(`path.join(__dirname, "templates")`); it lies outside the target tree, so
it is modeled under a distinguished root segment. -/
def templatesPath : FsPath := ["<cli-templates>"]

/-- Events of `createFeature`: one `mkdirSync(..., \x7b recursive: true \x7d)`
call per feature folder, then the README write. -/
def createFeatureEvents (featureName : String) : List Event :=
  featureFolders.map (fun f => Event.mkdir ["src", "features", featureName, f])
    ++ [Event.writeFile ["src", "features", featureName, "README.md"]]

/-- Steps 8-10 of `main` (src/index.js lines 233-260): ensure `src/app`,
copy `page.tsx`, `layout.tsx`, the Prettier config files, and write the
root README. -/
def finishPipeline (c : Ctx) (projectName : String) (es : List Event) :
    Nat × List Event :=
  let es := es
    ++ (if c.appExists then [] else [Event.mkdir [projectName, "src", "app"]])
    ++ [Event.copyFile (templatesPath ++ ["page.tsx"]) [projectName, "src", "app", "page.tsx"],
        Event.copyFile (templatesPath ++ ["layout.tsx"]) [projectName, "src", "app", "layout.tsx"],
        Event.copyFile (templatesPath ++ [".prettierrc"]) [projectName, ".prettierrc"],
        Event.copyFile (templatesPath ++ [".prettierignore"]) [projectName, ".prettierignore"],
        Event.writeFile [projectName, "README.md"]]
  (0, es)

/-- Steps 3-10 of `main` for project-scaffold mode (src/index.js lines
149-269), starting after name resolution.  A thrown error anywhere is
caught by `main().catch`, which prints a diagnostic and exits 1. -/
def projectPipeline (c : Ctx) (projectName : String) : Nat × List Event :=
  let es := [Event.execNode, Event.execGenerator projectName]
  if c.genOk = false then (1, es ++ [Event.errMsg "Unexpected error:"])
  else
    let es := es
      ++ (if c.publicExists then [] else [Event.mkdir [projectName, "public"]])
      ++ [Event.copyFile (templatesPath ++ ["lscs-logo.png"]) [projectName, "public", "lscs-logo.png"],
          Event.writeFile [projectName, "package.json"],
          Event.execNpm "npm install --save-dev prettier"]
    if c.npmOk = false then (1, es ++ [Event.errMsg "Unexpected error:"])
    else if c.parseOk = false then (1, es ++ [Event.errMsg "Unexpected error:"])
    else
      let es := es
        ++ [Event.writeFile [projectName, "package.json"]]
        ++ baseFolders.map (fun f => Event.mkdir [projectName, "src", f])
        ++ featureFolders.map (fun f =>
             Event.mkdir [projectName, "src", "features", "[feature-name]", f])
        ++ [Event.writeFile [projectName, "src", "features", "[feature-name]", "README.md"]]
        ++ (if c.stylesExists then [] else [Event.mkdir [projectName, "src", "styles"]])
        ++ [Event.rename ([projectName] ++ globalsSrc) ([projectName] ++ globalsDest)]
      if c.renameOk then finishPipeline c projectName es
      else
        let es := es ++ [Event.copyFile ([projectName] ++ globalsSrc) ([projectName] ++ globalsDest)]
        if c.copyOk = false then (1, es ++ [Event.errMsg "Unexpected error:"])
        else
          let es := es ++ [Event.unlink ([projectName] ++ globalsSrc)]
          if c.unlinkOk = false then (1, es ++ [Event.errMsg "Unexpected error:"])
          else finishPipeline c projectName es

/-- The whole of `main` plus `main().catch` (src/index.js lines 109-276) as
an exit code and event trace: Step 0 runtime check, Step 1 `feature`
dispatch, Step 2 name resolution, then the project pipeline. -/
def mainEvents (c : Ctx) : Nat × List Event :=
  match c.nodeMajor with
  | none => (1, [Event.execNode, Event.errMsg "Node.js must be installed."])
  | some major =>
    if major < 18 then (1, [Event.execNode, Event.errMsg "Node.js 18+ required"])
    else if c.argv2 = some "feature" then
      match c.argv3 with
      | none => (1, [Event.execNode,
          Event.errMsg "Provide feature name: npx create-lscs-next-app feature <feature-name>"])
      | some featureNameArg => (0, [Event.execNode] ++ createFeatureEvents featureNameArg)
    else
      match getProjectName c.argv2 c.promptAnswer with
      | .error msg => (1, [Event.execNode, Event.errMsg msg])
      | .ok (projectName, _) => projectPipeline c projectName

-- ────────────────────────────────────────────────────────────────────
-- Helper lemmas: association lists
-- ────────────────────────────────────────────────────────────────────

theorem getAssoc_setAssoc_self {α β : Type} [DecidableEq α] (k : α) (v : β)
    (l : List (α × β)) : getAssoc k (setAssoc k v l) = some v := by
  induction l with
  | nil => simp [setAssoc, getAssoc]
  | cons hd tl ih =>
    by_cases h : hd.1 = k
    · simp [setAssoc, getAssoc, h]
    · simpa [setAssoc, getAssoc, h] using ih

theorem getAssoc_setAssoc_ne {α β : Type} [DecidableEq α] {k k' : α} (v : β)
    (l : List (α × β)) (h : k' ≠ k) :
    getAssoc k' (setAssoc k v l) = getAssoc k' l := by
  have hk : ¬ k = k' := fun hkk => h hkk.symm
  induction l with
  | nil => simp [setAssoc, getAssoc, hk]
  | cons hd tl ih =>
    by_cases hhd : hd.1 = k
    · simp [setAssoc, getAssoc, hhd, hk]
    · by_cases hhd' : hd.1 = k'
      · simp [setAssoc, getAssoc, hhd, hhd', h]
      · simp [setAssoc, getAssoc, hhd, hhd', ih]

-- ────────────────────────────────────────────────────────────────────
-- Helper lemmas: directory insertion and recursive mkdir
-- ────────────────────────────────────────────────────────────────────

theorem mem_insertDir_of_mem {x d : FsPath} {ds : List FsPath} (h : x ∈ ds) :
    x ∈ insertDir d ds := by
  unfold insertDir; split
  · exact h
  · exact List.mem_append_left _ h

theorem mem_insertDir_self (d : FsPath) (ds : List FsPath) :
    d ∈ insertDir d ds := by
  unfold insertDir; split
  · assumption
  · exact List.mem_append_right _ (List.mem_singleton.mpr rfl)

theorem insertDir_of_mem {d : FsPath} {ds : List FsPath} (h : d ∈ ds) :
    insertDir d ds = ds := by
  unfold insertDir; simp [h]

theorem mem_addDirs_of_mem {x : FsPath} (ps : List FsPath) {ds : List FsPath}
    (h : x ∈ ds) : x ∈ addDirs ps ds := by
  induction ps generalizing ds with
  | nil => exact h
  | cons p ps ih => exact ih (mem_insertDir_of_mem h)

theorem mem_addDirs_of_mem_left {x : FsPath} {ps : List FsPath}
    (ds : List FsPath) (h : x ∈ ps) : x ∈ addDirs ps ds := by
  induction ps generalizing ds with
  | nil => cases h
  | cons p ps ih =>
    rcases List.mem_cons.mp h with rfl | hx
    · exact mem_addDirs_of_mem ps (mem_insertDir_self x ds)
    · exact ih _ hx

theorem addDirs_of_all_mem {ps ds : List FsPath} (h : ∀ p ∈ ps, p ∈ ds) :
    addDirs ps ds = ds := by
  induction ps with
  | nil => rfl
  | cons p ps ih =>
    have hp : insertDir p ds = ds := insertDir_of_mem (h p (List.mem_cons_self _ _))
    show addDirs ps (insertDir p ds) = ds
    rw [hp]
    exact ih fun q hq => h q (List.mem_cons_of_mem _ hq)

theorem mkdirSyncRec_files (p : FsPath) (fs : FS) :
    (mkdirSyncRec p fs).files = fs.files := rfl

theorem mkdirSyncRec_of_all_mem {p : FsPath} {fs : FS}
    (h : ∀ q ∈ prefixesOf p, q ∈ fs.dirs) : mkdirSyncRec p fs = fs := by
  unfold mkdirSyncRec
  rw [addDirs_of_all_mem h]

theorem mkdirAll_files (root : FsPath) (ds : List FsPath) (fs : FS) :
    (mkdirAll root ds fs).files = fs.files := by
  induction ds generalizing fs with
  | nil => rfl
  | cons d ds ih =>
    show (mkdirAll root ds (mkdirSyncRec (root ++ d) fs)).files = fs.files
    rw [ih, mkdirSyncRec_files]

theorem mem_mkdirAll_dirs_of_mem {x : FsPath} (root : FsPath)
    (ds : List FsPath) {fs : FS} (h : x ∈ fs.dirs) :
    x ∈ (mkdirAll root ds fs).dirs := by
  induction ds generalizing fs with
  | nil => exact h
  | cons d ds ih =>
    exact ih (mem_addDirs_of_mem (prefixesOf (root ++ d)) h)

theorem prefixes_mem_mkdirAll (root : FsPath) (ds : List FsPath) (fs : FS) :
    ∀ d ∈ ds, ∀ q ∈ prefixesOf (root ++ d), q ∈ (mkdirAll root ds fs).dirs := by
  induction ds generalizing fs with
  | nil => intro d hd; cases hd
  | cons d0 ds ih =>
    intro d hd q hq
    rcases List.mem_cons.mp hd with rfl | hd'
    · exact mem_mkdirAll_dirs_of_mem root ds
        (mem_addDirs_of_mem_left fs.dirs hq)
    · exact ih (mkdirSyncRec (root ++ d0) fs) d hd' q hq

theorem mkdirAll_of_all_mem {root : FsPath} {ds : List FsPath} {fs : FS}
    (h : ∀ d ∈ ds, ∀ q ∈ prefixesOf (root ++ d), q ∈ fs.dirs) :
    mkdirAll root ds fs = fs := by
  induction ds with
  | nil => rfl
  | cons d ds ih =>
    have h0 : mkdirSyncRec (root ++ d) fs = fs :=
      mkdirSyncRec_of_all_mem (h d (List.mem_cons_self _ _))
    show mkdirAll root ds (mkdirSyncRec (root ++ d) fs) = fs
    rw [h0]
    exact ih fun d' hd' => h d' (List.mem_cons_of_mem _ hd')

-- ────────────────────────────────────────────────────────────────────
-- Concrete fixtures used by counterexamples and witnesses
-- ────────────────────────────────────────────────────────────────────

/-- A generator-produced tree in which `src/app` exists but
`src/app/globals.css` does not (a version-dependent generator layout). -/
def fsNoGlobals : FS := { dirs := [["src"], ["src", "app"]], files := [] }

/-- A tree holding one file with stale content, for the overwrite witness. -/
def fsStale : FS :=
  { dirs := [["src"]], files := [(["src", "README.md"], "old content")] }

/-- A run invoked as `create-lscs-next-app feature` (no feature name) on a
Node 20 host. -/
def ctxFeatureNoName : Ctx :=
  { argv2 := some "feature", argv3 := none, nodeMajor := some 20,
    promptAnswer := "", genOk := true, npmOk := true, parseOk := true,
    publicExists := false, stylesExists := false, appExists := false,
    renameOk := true, copyOk := true, unlinkOk := true }

/-- A project-scaffold run whose external generator exits non-zero. -/
def ctxGenFail : Ctx :=
  { argv2 := some "demo", argv3 := none, nodeMajor := some 20,
    promptAnswer := "", genOk := false, npmOk := true, parseOk := true,
    publicExists := false, stylesExists := false, appExists := false,
    renameOk := true, copyOk := true, unlinkOk := true }

/-- A run on a Node 16 host. -/
def ctxOldNode : Ctx :=
  { argv2 := some "demo", argv3 := none, nodeMajor := some 16,
    promptAnswer := "", genOk := true, npmOk := true, parseOk := true,
    publicExists := false, stylesExists := false, appExists := false,
    renameOk := true, copyOk := true, unlinkOk := true }

-- ────────────────────────────────────────────────────────────────────
-- Claim theorems
-- ────────────────────────────────────────────────────────────────────

/-- C7: directory materialization (`forEach` of `mkdirSync(...,
recursive)`) is idempotent: a second run over the same root and manifest
changes nothing, raises no error (the model of `recursive: true` is total),
and the file map — hence every existing file's content — is untouched. -/
theorem mkdirAll_idempotent (root : FsPath) (ds : List FsPath) (fs : FS) :
    mkdirAll root ds (mkdirAll root ds fs) = mkdirAll root ds fs ∧
    (mkdirAll root ds fs).files = fs.files := by
  refine ⟨?_, mkdirAll_files root ds fs⟩
  exact mkdirAll_of_all_mem (prefixes_mem_mkdirAll root ds fs)

set_option maxRecDepth 100000 in
/-- C4: the text produced by `packageJsonTemplate` is NOT valid JSON — it
opens four braces but closes only three (the top-level object is never
closed), so the `JSON.parse` in Step 4b of `main` cannot succeed on it.
Evaluated here at the failing input `"demo"`. -/
theorem packageJsonTemplate_brace_mismatch :
    countChar openBrace (packageJsonTemplate "demo") = 4 ∧
    countChar closeBrace (packageJsonTemplate "demo") = 3 := by
  constructor <;> rfl

/-- C2 counterexample: `"featurex"` is supplied as `argv[0]`, is present and
is not equal to the reserved word `"feature"`, yet the resolved name is the
prompt answer `"zzz"` and the interactive prompt occurs (flag `true`),
because `getProjectName` tests `startsWith("feature")` rather than
equality. -/
theorem getProjectName_startsWith_counterexample :
    getProjectName (some "featurex") "zzz" = Except.ok ("zzz", true) ∧
    "featurex" ≠ "feature" := by
  constructor
  · rfl
  · decide

/-- C2 amended: the resolved project name equals `argv[0]` with no prompt
when `argv[0]` is present, nonempty and does not START WITH `"feature"`;
when `argv[0]` is absent the name comes from the prompt, and an empty
trimmed answer fails with the MissingArgument diagnostic (exit 1). -/
theorem getProjectName_resolution (a promptRaw : String)
    (ha : a ≠ "") (hs : jsStartsWith a "feature" = false) :
    getProjectName (some a) promptRaw = Except.ok (a, false) ∧
    (jsTrim promptRaw = "" →
      getProjectName none promptRaw = Except.error "Project name is required.") ∧
    (jsTrim promptRaw ≠ "" →
      getProjectName none promptRaw = Except.ok (jsTrim promptRaw, true)) := by
  refine ⟨?_, ?_, ?_⟩
  · simp [getProjectName, ha, hs]
  · intro h; simp [getProjectName, askQuestion, h]
  · intro h; simp [getProjectName, askQuestion, h]

/-- C2 amended, witness: evaluated at `argv[0] = "my-app"` with prompt
answer `"  demo  "`. -/
theorem getProjectName_resolution_witness :
    ("my-app" : String) ≠ "" ∧ jsStartsWith "my-app" "feature" = false ∧
    (getProjectName (some "my-app") "  demo  " = Except.ok ("my-app", false) ∧
     (jsTrim "  demo  " = "" →
       getProjectName none "  demo  " = Except.error "Project name is required.") ∧
     (jsTrim "  demo  " ≠ "" →
       getProjectName none "  demo  " = Except.ok (jsTrim "  demo  ", true))) :=
  ⟨by decide, by decide, getProjectName_resolution "my-app" "  demo  " (by decide) (by decide)⟩

/-- The `scripts` object after the test-script injection is the old one with
`test` set. -/
theorem scriptsOf_addTestScript (pkg : Manifest) :
    scriptsOf (addTestScript pkg) =
      setAssoc "test" (JsonVal.str "vitest") (scriptsOf pkg) := by
  unfold scriptsOf addTestScript
  rw [getAssoc_setAssoc_self]
  rfl

/-- The `scripts` object after the format-script injection is the old one
with `format` set. -/
theorem scriptsOf_addFormatScript (pkg : Manifest) :
    scriptsOf (addFormatScript pkg) =
      setAssoc "format" (JsonVal.str "prettier --write .") (scriptsOf pkg) := by
  unfold scriptsOf addFormatScript
  rw [getAssoc_setAssoc_self]
  rfl

/-- C5: the manifest patch only touches the targeted script entries.  On the
concrete shape `\x7ba, b, scripts: \x7bx\x7d\x7d` the test-script patch
yields `\x7ba, b, scripts: \x7bx, test\x7d\x7d`; in general, every
top-level key other than `scripts` and every `scripts` entry other than the
targeted one keep their values, and the targeted entries are set. -/
theorem manifestPatch_frame (ka kb kx k1 k2 : String) (va vb vx : JsonVal)
    (pkg : Manifest)
    (hka : ka ≠ "scripts") (hkb : kb ≠ "scripts") (hkx : kx ≠ "test")
    (h1 : k1 ≠ "scripts") (h2t : k2 ≠ "test") (h2f : k2 ≠ "format") :
    addTestScript [(ka, va), (kb, vb), ("scripts", JsonVal.obj [(kx, vx)])]
      = [(ka, va), (kb, vb),
         ("scripts", JsonVal.obj [(kx, vx), ("test", JsonVal.str "vitest")])] ∧
    getAssoc k1 (addTestScript pkg) = getAssoc k1 pkg ∧
    getAssoc k1 (addFormatScript pkg) = getAssoc k1 pkg ∧
    getAssoc k2 (scriptsOf (addTestScript pkg)) = getAssoc k2 (scriptsOf pkg) ∧
    getAssoc k2 (scriptsOf (addFormatScript pkg)) = getAssoc k2 (scriptsOf pkg) ∧
    getAssoc "test" (scriptsOf (addTestScript pkg)) = some (JsonVal.str "vitest") ∧
    getAssoc "format" (scriptsOf (addFormatScript pkg))
      = some (JsonVal.str "prettier --write .") := by
  refine ⟨?_, ?_, ?_, ?_, ?_, ?_, ?_⟩
  · simp [addTestScript, scriptsOf, getAssoc, setAssoc, hka, hkb, hkx]
  · exact getAssoc_setAssoc_ne _ _ h1
  · exact getAssoc_setAssoc_ne _ _ h1
  · rw [scriptsOf_addTestScript]; exact getAssoc_setAssoc_ne _ _ h2t
  · rw [scriptsOf_addFormatScript]; exact getAssoc_setAssoc_ne _ _ h2f
  · rw [scriptsOf_addTestScript]; exact getAssoc_setAssoc_self _ _ _
  · rw [scriptsOf_addFormatScript]; exact getAssoc_setAssoc_self _ _ _

/-- C5 witness: evaluated at the manifest
`\x7ba: 1, b: 2, scripts: \x7bx: "echo"\x7d\x7d`, with frame keys
`a` and `y`. -/
theorem manifestPatch_frame_witness :
    ("a" : String) ≠ "scripts" ∧ ("b" : String) ≠ "scripts" ∧
    ("x" : String) ≠ "test" ∧ ("a" : String) ≠ "scripts" ∧
    ("y" : String) ≠ "test" ∧ ("y" : String) ≠ "format" ∧
    (addTestScript [("a", JsonVal.num 1), ("b", JsonVal.num 2),
        ("scripts", JsonVal.obj [("x", JsonVal.str "echo")])]
      = [("a", JsonVal.num 1), ("b", JsonVal.num 2),
         ("scripts", JsonVal.obj [("x", JsonVal.str "echo"),
           ("test", JsonVal.str "vitest")])] ∧
     getAssoc "a" (addTestScript [("a", JsonVal.num 1)])
       = getAssoc "a" [("a", JsonVal.num 1)] ∧
     getAssoc "a" (addFormatScript [("a", JsonVal.num 1)])
       = getAssoc "a" [("a", JsonVal.num 1)] ∧
     getAssoc "y" (scriptsOf (addTestScript [("a", JsonVal.num 1)]))
       = getAssoc "y" (scriptsOf [("a", JsonVal.num 1)]) ∧
     getAssoc "y" (scriptsOf (addFormatScript [("a", JsonVal.num 1)]))
       = getAssoc "y" (scriptsOf [("a", JsonVal.num 1)]) ∧
     getAssoc "test" (scriptsOf (addTestScript [("a", JsonVal.num 1)]))
       = some (JsonVal.str "vitest") ∧
     getAssoc "format" (scriptsOf (addFormatScript [("a", JsonVal.num 1)]))
       = some (JsonVal.str "prettier --write .")) :=
  ⟨by decide, by decide, by decide, by decide, by decide, by decide,
   manifestPatch_frame "a" "b" "x" "a" "y" (JsonVal.num 1) (JsonVal.num 2)
     (JsonVal.str "echo") [("a", JsonVal.num 1)]
     (by decide) (by decide) (by decide) (by decide) (by decide) (by decide)⟩

/-- C10: template rendering is a pure function (two renderings of the same
name are the same text), and `writeFileSync` is last-write-wins: it
replaces the content at the target path unconditionally — even over an
existing file — while touching no other file and no directory. -/
theorem templateWrite_lastWriteWins (n : String) (p q : FsPath) (fs : FS)
    (prev : String) (_hprev : findFile fs p = some prev) (hq : q ≠ p) :
    findFile (writeFileSync p (featureReadme n) fs) p = some (featureReadme n) ∧
    findFile (writeFileSync p (featureReadme n) fs) q = findFile fs q ∧
    (writeFileSync p (featureReadme n) fs).dirs = fs.dirs ∧
    featureReadme n = featureReadme n ∧
    readmeTemplate n = readmeTemplate n ∧
    packageJsonTemplate n = packageJsonTemplate n := by
  refine ⟨?_, ?_, rfl, rfl, rfl, rfl⟩
  · exact getAssoc_setAssoc_self _ _ _
  · exact getAssoc_setAssoc_ne _ _ hq

/-- C10 witness: overwriting the stale file `src/README.md` of `fsStale`
with the rendered feature README for `"auth"`. -/
theorem templateWrite_lastWriteWins_witness :
    findFile fsStale ["src", "README.md"] = some "old content" ∧
    (["src", "x.txt"] : FsPath) ≠ ["src", "README.md"] ∧
    (findFile (writeFileSync ["src", "README.md"] (featureReadme "auth") fsStale)
        ["src", "README.md"] = some (featureReadme "auth") ∧
     findFile (writeFileSync ["src", "README.md"] (featureReadme "auth") fsStale)
        ["src", "x.txt"] = findFile fsStale ["src", "x.txt"] ∧
     (writeFileSync ["src", "README.md"] (featureReadme "auth") fsStale).dirs
        = fsStale.dirs ∧
     featureReadme "auth" = featureReadme "auth" ∧
     readmeTemplate "auth" = readmeTemplate "auth" ∧
     packageJsonTemplate "auth" = packageJsonTemplate "auth") :=
  ⟨by rfl, by decide,
   templateWrite_lastWriteWins "auth" ["src", "README.md"] ["src", "x.txt"]
     fsStale "old content" (by rfl) (by decide)⟩

/-- C3 counterexample: on a generator tree where `src/app/globals.css` is
absent (`fsNoGlobals`), the relocation step does not no-op: `renameSync`
throws, the `copyFileSync` fallback in the catch block throws ENOENT as
well, and the error escapes the step (so the run exits 1, not 0). -/
theorem moveGlobals_absent_counterexample :
    moveGlobals fsNoGlobals = Except.error "ENOENT" := by rfl

/-- C3 amended: whenever the source stylesheet is absent, the relocation
step raises an error (it never completes successfully); the uncaught error
reaches `main().catch`, which exits with code 1, and no destination file
has been written by the step. -/
theorem moveGlobals_absent_errors (fs : FS)
    (h : findFile fs globalsSrc = none) :
    (moveGlobals fs).isOk = false := by
  have h1 : ∀ ds, findFile (FS.mk ds fs.files) globalsSrc = none := fun ds => h
  unfold moveGlobals
  by_cases hex : existsSync stylesDir fs
  · simp only [hex, if_true, Except.bind, renameSync, copyFileSync, h]
    rfl
  · simp only [hex, if_false, Bool.false_eq_true]
    unfold mkdirSync
    rw [if_neg (by simp [hex])]
    split
    · simp only [Except.bind, renameSync, copyFileSync, h1]
      rfl
    · rfl

/-- C3 amended, witness: evaluated on `fsNoGlobals`. -/
theorem moveGlobals_absent_errors_witness :
    findFile fsNoGlobals globalsSrc = none ∧
    (moveGlobals fsNoGlobals).isOk = false :=
  ⟨by rfl, moveGlobals_absent_errors fsNoGlobals (by rfl)⟩

/-- C6: invoking the CLI as `feature` with no feature name exits with code
1 after a diagnostic, and the trace holds no filesystem mutation: no
directory or file is created. -/
theorem featureMissingName_noMutation (c : Ctx)
    (h2 : c.argv2 = some "feature") (h3 : c.argv3 = none) :
    (mainEvents c).1 = 1 ∧ (mainEvents c).2.filter isMutEvent = [] ∧
    hasErrMsg (mainEvents c).2 = true := by
  unfold mainEvents
  cases hn : c.nodeMajor with
  | none => simp [hasErrMsg, isMutEvent]
  | some major =>
    by_cases hm : major < 18
    · simp [hm, hasErrMsg, isMutEvent]
    · simp [hm, h2, h3, hasErrMsg, isMutEvent]

/-- C6 witness: evaluated on `ctxFeatureNoName`. -/
theorem featureMissingName_noMutation_witness :
    (mainEvents ctxFeatureNoName).1 = 1 ∧
    (mainEvents ctxFeatureNoName).2.filter isMutEvent = [] ∧
    hasErrMsg (mainEvents ctxFeatureNoName).2 = true :=
  featureMissingName_noMutation ctxFeatureNoName rfl rfl

/-- C9: when Node is absent or its major version is below 18, the run exits
with code 1 and its whole trace is the version probe followed by one
diagnostic — no dispatch, no name resolution, no generator invocation, and
no filesystem mutation happened. -/
theorem runtimeCheckFirst (c : Ctx)
    (h : ∀ v, c.nodeMajor = some v → v < 18) :
    (mainEvents c).1 = 1 ∧ isRuntimeFailTrace (mainEvents c).2 = true ∧
    (mainEvents c).2.filter isMutEvent = [] := by
  unfold mainEvents
  cases hn : c.nodeMajor with
  | none => simp [isRuntimeFailTrace, isMutEvent]
  | some v => simp [h v hn, isRuntimeFailTrace, isMutEvent]

/-- C9 witness: evaluated on the Node 16 run `ctxOldNode`. -/
theorem runtimeCheckFirst_witness :
    (mainEvents ctxOldNode).1 = 1 ∧
    isRuntimeFailTrace (mainEvents ctxOldNode).2 = true ∧
    (mainEvents ctxOldNode).2.filter isMutEvent = [] :=
  runtimeCheckFirst ctxOldNode (by intro v hv; simp [ctxOldNode] at hv; omega)

/-- A trace that opens with the version probe and then the generator
invocation has no mutation before the generator, whatever follows. -/
theorem noMutBeforeGen_cons_gen (n : String) (rest : List Event) :
    noMutBeforeGen (Event.execNode :: Event.execGenerator n :: rest) = true := rfl

/-- Every project-pipeline trace opens with the version probe and then the
generator invocation, so nothing is mutated before the generator runs. -/
theorem noMutBeforeGen_projectPipeline (c : Ctx) (n : String) :
    noMutBeforeGen (projectPipeline c n).2 = true := by
  unfold projectPipeline finishPipeline
  dsimp only
  repeat' split
  all_goals simp only [List.cons_append, List.nil_append, List.append_assoc]
  all_goals rfl

/-- When the external generator exits non-zero, the pipeline stops at once:
exit code 1, and the trace ends at the generator invocation plus the
top-level diagnostic. -/
theorem projectPipeline_genFail (c : Ctx) (n : String)
    (hg : c.genOk = false) :
    projectPipeline c n =
      (1, [Event.execNode, Event.execGenerator n,
           Event.errMsg "Unexpected error:"]) := by
  unfold projectPipeline
  simp [hg]

/-- C8: in project-scaffold mode the external generator runs before any of
the scaffolder's own directory-creation or template-write operations, and a
non-zero generator exit aborts the run (exit code 1) with no scaffolder
mutation performed — and none rolled back (the trace holds no mutation at
all, in particular no deletion). -/
theorem generatorFirst_allOrNothing (c : Ctx)
    (hmode : ¬ c.argv2 = some "feature") :
    noMutBeforeGen (mainEvents c).2 = true ∧
    (c.genOk = false →
      (mainEvents c).1 = 1 ∧ (mainEvents c).2.filter isMutEvent = []) := by
  unfold mainEvents
  cases hn : c.nodeMajor with
  | none => exact ⟨rfl, fun _ => ⟨rfl, rfl⟩⟩
  | some v =>
    by_cases hv : v < 18
    · simp only [hv, if_true]
      refine ⟨?_, fun _ => ⟨?_, ?_⟩⟩ <;> first | rfl | trivial
    · simp only [hv, if_false]
      rw [if_neg hmode]
      cases hpn : getProjectName c.argv2 c.promptAnswer with
      | error msg => exact ⟨rfl, fun _ => ⟨rfl, rfl⟩⟩
      | ok pr =>
        obtain ⟨name, flag⟩ := pr
        dsimp only
        refine ⟨noMutBeforeGen_projectPipeline c name, fun hg => ?_⟩
        rw [projectPipeline_genFail c name hg]
        exact ⟨rfl, rfl⟩

/-- C8 witness: evaluated on `ctxGenFail`, a `demo` scaffold whose
generator fails. -/
theorem generatorFirst_allOrNothing_witness :
    (noMutBeforeGen (mainEvents ctxGenFail).2 = true ∧
     (ctxGenFail.genOk = false →
       (mainEvents ctxGenFail).1 = 1 ∧
       (mainEvents ctxGenFail).2.filter isMutEvent = [])) :=
  generatorFirst_allOrNothing ctxGenFail (by decide)

/-- C1: feature-scaffold mode creates exactly the seven sub-folders under
`src/features/<featureName>` (together with their ancestor chain and
nothing else), and exactly one file — `README.md` directly under the
feature base — whose rendered content embeds the feature name verbatim. -/
theorem createFeature_exact (n : String) :
    (createFeature n FS.empty).dirs =
      [["src"], ["src", "features"], ["src", "features", n],
       ["src", "features", n, "components"], ["src", "features", n, "containers"],
       ["src", "features", n, "hooks"], ["src", "features", n, "services"],
       ["src", "features", n, "queries"], ["src", "features", n, "types"],
       ["src", "features", n, "data"]] ∧
    (createFeature n FS.empty).files =
      [(["src", "features", n, "README.md"], featureReadme n)] ∧
    ∃ pre post, featureReadme n = pre ++ n ++ post := by
  refine ⟨?_, rfl, ⟨_, _, rfl⟩⟩
  simp [createFeature, featureFolders, mkdirSyncRec, addDirs, prefixesOf,
    insertDir, writeFileSync, setAssoc, FS.empty, List.foldl]
